import Mathlib

/-!
Shallow embedding of the SynologyPhotosAPI repository
(SynologyPhotosLib.py and the scripts AddTags.py, UpdateTagsList.py,
UpdateApiInfo.py).  The HTTP transport is mocked: a library call receives
the decoded HTTP response as an explicit argument, and the batch scripts
run against a mock world that maps folder ids to folder trees and supplies
the outcomes of the individual requests.  Raised exceptions are modelled
with Except; the distinct message formats of the single Python exception
class SynologyPhotoError are modelled by the constructors of an inductive
type carrying the same data.
-/

namespace SynologyPhotos

/-- The single Python exception class SynologyPhotoError.  Each constructor
records one of the message formats the library raises with:
Request failed: {status_code} / {context}: {error code} /
Tag {name} not found. -/
inductive SynologyPhotoError where
  | requestFailed (statusCode : Nat)
  | apiFailed (context : String) (errorCode : Nat)
  | tagNotFound (tagName : String)
deriving Repr, DecidableEq

/-- str(e) for the modelled exception: the message the Python code builds. -/
def errString : SynologyPhotoError → String
  | .requestFailed s => "Request failed: " ++ toString s
  | .apiFailed ctx c => ctx ++ ": " ++ toString c
  | .tagNotFound n => "Tag " ++ n ++ " not found."

/-- An item (photo or video) dictionary; only the id field is consumed by
the repository code. -/
structure Item where
  id : Nat
deriving Repr, DecidableEq

/-- A tag dictionary; the repository consumes the name and id fields. -/
structure Tag where
  id : Nat
  name : String
deriving Repr, DecidableEq

/-- A folder dictionary; the repository consumes the id field. -/
structure Folder where
  id : Nat
deriving Repr, DecidableEq

/-- Decoded body of a vendor response: the success flag, the value of
error.code (meaningful when success is false) and the data payload. -/
structure ApiBody (α : Type) where
  success : Bool
  errorCode : Nat
  data : α
deriving Repr, DecidableEq

/-- A decoded HTTP response: status code plus decoded JSON body. -/
structure HttpResponse (α : Type) where
  status_code : Nat
  body : ApiBody α
deriving Repr, DecidableEq

/-- data payload of the login endpoint: holds the sid. -/
structure AuthData where
  sid : String
deriving Repr, DecidableEq

/-- data payload of the list endpoints: a dictionary with a list field. -/
structure ListData (α : Type) where
  list : List α
deriving Repr, DecidableEq

/-- The response check every library function performs, in source order:
a non-200 status raises Request failed: {status}; then a false success
flag raises {context}: {error code}; otherwise the data payload is
returned. -/
def apiCheck (context : String) (resp : HttpResponse α) :
    Except SynologyPhotoError α :=
  if resp.status_code ≠ 200 then
    .error (.requestFailed resp.status_code)
  else if resp.body.success = false then
    .error (.apiFailed context resp.body.errorCode)
  else
    .ok resp.body.data

/-- A mocked folder tree: the folder id, the item page the vendor returns
for that folder, and the subfolder trees the vendor returns for it. -/
inductive FolderTree where
  | node (id : Nat) (items : List Item) (children : List FolderTree)

/-- The item page of the root folder of a tree. -/
def FolderTree.folderItems : FolderTree → List Item
  | .node _ its _ => its

/-- The id of the root folder of a tree. -/
def FolderTree.folderId : FolderTree → Nat
  | .node i _ _ => i

mutual

/-- Preorder traversal of a folder tree: the folder followed by the
traversal of each child in order. -/
def preorder : FolderTree → List FolderTree
  | .node i its cs => .node i its cs :: preorderChildren cs

/-- Preorder traversal of a forest. -/
def preorderChildren : List FolderTree → List FolderTree
  | [] => []
  | c :: cs => preorder c ++ preorderChildren cs

end

/-- The proper descendant folders of a folder, in preorder. -/
def descendants : FolderTree → List FolderTree
  | .node _ _ cs => preorderChildren cs

/-- All items of a folder and of its descendant folders, each folder
contributing its item page exactly once, in preorder. -/
def treeItems (t : FolderTree) : List Item :=
  ((preorder t).map FolderTree.folderItems).flatten

/-- Mock world for the batch scripts: per-folder failure injection for the
item and folder list requests, the folder tree rooted at each folder id,
and the outcomes of the login, tag list and add_tag requests. -/
structure World where
  itemsError : Nat → Option SynologyPhotoError
  foldersError : Nat → Option SynologyPhotoError
  folderOf : Nat → FolderTree
  authResult : Except SynologyPhotoError String
  tagsResult : Except SynologyPhotoError (List Tag)
  addTagError : List Nat → List Nat → Option SynologyPhotoError
  apiInfoResult : Except SynologyPhotoError String

mutual

/-- get_items with recursive=True run against the mock world on the folder
tree of a folder: the item page of the folder, then, folder by folder as
listed by the mocked folder endpoint, the recursive items of each
subfolder; an injected request failure propagates out (the Python
exception aborts the whole call). -/
def get_items_recursive (w : World) : FolderTree → Except SynologyPhotoError (List Item)
  | .node fid its cs =>
    match w.itemsError fid with
    | some e => .error e
    | none =>
      match w.foldersError fid with
      | some e => .error e
      | none =>
        match get_items_children w cs with
        | .error e => .error e
        | .ok rest => .ok (its ++ rest)

/-- The extend loop of get_items over the subfolders returned for the
current folder. -/
def get_items_children (w : World) : List FolderTree → Except SynologyPhotoError (List Item)
  | [] => .ok []
  | c :: cs =>
    match get_items_recursive w c with
    | .error e => .error e
    | .ok xs =>
      match get_items_children w cs with
      | .error e => .error e
      | .ok ys => .ok (xs ++ ys)

end

/-- get_items(sid, folder_id, recursive=True) as the scripts call it: the
recursion runs over the tree the mocked endpoints return for folder_id. -/
def get_items_by_id (w : World) (folder_id : Nat) :
    Except SynologyPhotoError (List Item) :=
  get_items_recursive w (w.folderOf folder_id)

/-! ### The HTTP requests the library builds

A query parameter whose Python value is None is dropped by requests when
the URL is built, so parameter values are Option String; numbers are sent
in decimal. -/

/-- A single HTTP GET request: endpoint path (relative to the configured
base URL) and query parameters. -/
structure Request where
  endpoint : String
  params : List (String × Option String)
deriving Repr, DecidableEq

/-- json.dumps of a list of ints, as Python formats it. -/
def jsonDumpsNatList (l : List Nat) : String :=
  "[" ++ String.intercalate ", " (l.map toString) ++ "]"

/-- Parameter dictionary of authenticate. -/
def authenticate_params (username password : String) :
    List (String × Option String) :=
  [("api", some "SYNO.API.Auth"),
   ("version", some "7"),
   ("method", some "login"),
   ("account", some username),
   ("passwd", some password)]

/-- Parameter dictionary of get_api_info. -/
def get_api_info_params : List (String × Option String) :=
  [("api", some "SYNO.API.Info"),
   ("version", some "1"),
   ("method", some "query")]

/-- Parameter dictionary of get_folders. -/
def get_folders_params (sid : String) (folder_id : Option Nat) :
    List (String × Option String) :=
  [("api", some "SYNO.Foto.Browse.Folder"),
   ("version", some "2"),
   ("id", folder_id.map toString),
   ("method", some "list"),
   ("_sid", some sid),
   ("offset", some "0"),
   ("limit", some "100")]

/-- Parameter dictionary of get_items. -/
def get_items_params (sid : String) (folder_id : Option Nat) :
    List (String × Option String) :=
  [("api", some "SYNO.Foto.Browse.Item"),
   ("version", some "4"),
   ("folder_id", folder_id.map toString),
   ("method", some "list"),
   ("_sid", some sid),
   ("offset", some "0"),
   ("limit", some "100"),
   ("additional", some "[\"tag\"]")]

/-- Parameter dictionary of get_all_tags. -/
def get_all_tags_params (sid : String) : List (String × Option String) :=
  [("api", some "SYNO.Foto.Browse.GeneralTag"),
   ("version", some "1"),
   ("method", some "list"),
   ("_sid", some sid),
   ("limit", some "100"),
   ("offset", some "0")]

/-- Parameter dictionary of add_tag. -/
def add_tag_params (sid : String) (item_ids tag_ids : List Nat) :
    List (String × Option String) :=
  [("api", some "SYNO.Foto.Browse.Item"),
   ("version", some "1"),
   ("method", some "add_tag"),
   ("_sid", some sid),
   ("id", some (jsonDumpsNatList item_ids)),
   ("tag", some (jsonDumpsNatList tag_ids))]

/-! ### The library functions at the HTTP level

Each function is run against the decoded response of the one request it
issues; it returns the list of requests it issued together with the
returned payload or the raised error. -/

/-- authenticate: one GET to webapi/auth.cgi, then the response check,
returning data.sid. -/
def authenticate_http (username password : String)
    (resp : HttpResponse AuthData) :
    List Request × Except SynologyPhotoError String :=
  ([⟨"webapi/auth.cgi", authenticate_params username password⟩],
   (apiCheck "Authentication failed" resp).map AuthData.sid)

/-- get_api_info: one GET to webapi/query.cgi, then the response check,
returning the data payload unchanged. -/
def get_api_info_http (resp : HttpResponse α) :
    List Request × Except SynologyPhotoError α :=
  ([⟨"webapi/query.cgi", get_api_info_params⟩],
   apiCheck "Failed to get API Info" resp)

/-- get_folders: one GET to webapi/entry.cgi, then the response check,
returning data.list. -/
def get_folders_http (sid : String) (folder_id : Option Nat)
    (resp : HttpResponse (ListData Folder)) :
    List Request × Except SynologyPhotoError (List Folder) :=
  ([⟨"webapi/entry.cgi", get_folders_params sid folder_id⟩],
   (apiCheck "Failed to get root folders" resp).map ListData.list)

/-- get_items with recursive=False: one GET to webapi/entry.cgi, then the
response check, returning data.list. -/
def get_items_http (sid : String) (folder_id : Option Nat)
    (resp : HttpResponse (ListData Item)) :
    List Request × Except SynologyPhotoError (List Item) :=
  ([⟨"webapi/entry.cgi", get_items_params sid folder_id⟩],
   (apiCheck "Failed to get items" resp).map ListData.list)

/-- get_all_tags: one GET to webapi/entry.cgi, then the response check,
returning data.list. -/
def get_all_tags_http (sid : String) (resp : HttpResponse (ListData Tag)) :
    List Request × Except SynologyPhotoError (List Tag) :=
  ([⟨"webapi/entry.cgi", get_all_tags_params sid⟩],
   (apiCheck "Failed to get all tags" resp).map ListData.list)

/-- add_tag: one GET to webapi/entry.cgi, then the response check,
returning nothing. -/
def add_tag_http (sid : String) (item_ids tag_ids : List Nat)
    (resp : HttpResponse Unit) :
    List Request × Except SynologyPhotoError Unit :=
  ([⟨"webapi/entry.cgi", add_tag_params sid item_ids tag_ids⟩],
   apiCheck "Failed to add tags" resp)

/-- Whether an error value embeds a given vendor error code: only the
errors raised on a false success flag carry one. -/
def carriesVendorCode : SynologyPhotoError → Nat → Prop
  | .apiFailed _ c, n => c = n
  | _, _ => False

/-! ### Tag lookup and the batch scripts, over the mock world -/

/-- get_all_tags against the mock world: the outcome of the single tag
list request. -/
def get_all_tags_w (w : World) : Except SynologyPhotoError (List Tag) :=
  w.tagsResult

/-- The loop body of get_tag: for tag in tags, return the tag whose name
equals tag_name, else raise Tag not found. -/
def findTagLoop : List Tag → String → Except SynologyPhotoError Tag
  | [], tag_name => .error (.tagNotFound tag_name)
  | t :: ts, tag_name =>
    if t.name == tag_name then .ok t else findTagLoop ts tag_name

/-- get_tag: fetch all tags, then scan them in order for the first one
whose name equals tag_name; raise when the scan finds none. -/
def get_tag_w (w : World) (tag_name : String) :
    Except SynologyPhotoError Tag :=
  match get_all_tags_w w with
  | .error e => .error e
  | .ok tags => findTagLoop tags tag_name

/-- add_tag against the mock world: the outcome of the single add_tag
request for these item ids and tag ids. -/
def add_tag_w (w : World) (item_ids tag_ids : List Nat) :
    Except SynologyPhotoError Unit :=
  match w.addTagError item_ids tag_ids with
  | some e => .error e
  | none => .ok ()

/-- The team name to folder id mapping of AddTags.py, in the insertion
order of the Python dict. -/
def team_folders_id : List (String × Nat) :=
  [("U20F", 3048), ("U18M-2", 3042), ("U18M-1", 3037), ("U16M-2", 3032),
   ("U16M-1", 3027), ("U16F", 3022), ("U14M-2", 3017), ("U14M-1", 3012),
   ("U12-2", 3007), ("U12-1", 3002), ("U10-1", 2997), ("3LRM", 2992),
   ("3LRF", 2987), ("2LRM", 2982), ("1LNM", 2977)]

/-- The stderr line process_team prints when it catches an error. -/
def errLine (team_name : String) (e : SynologyPhotoError) : String :=
  "Error processing team " ++ team_name ++ ": " ++ errString e

/-- Observable outcome of processing one team: the add_tag requests it
issued and the lines it printed to standard error. -/
structure TeamOutcome where
  addTagCalls : List (List Nat × List Nat)
  stderrLines : List String
deriving Repr, DecidableEq

/-- process_team of AddTags.py: recursively list the items of the folder,
collect their ids, resolve the tag named after the team, apply it to all
the ids; any SynologyPhotoError raised on the way is caught and printed
to standard error, and the function returns normally. -/
def process_team (w : World) (team_name : String) (folder_id : Nat) :
    TeamOutcome :=
  match get_items_by_id w folder_id with
  | .error e => ⟨[], [errLine team_name e]⟩
  | .ok items =>
    let items_ids := items.map Item.id
    match get_tag_w w team_name with
    | .error e => ⟨[], [errLine team_name e]⟩
    | .ok tag =>
      match add_tag_w w items_ids [tag.id] with
      | .error e => ⟨[(items_ids, [tag.id])], [errLine team_name e]⟩
      | .ok _ => ⟨[(items_ids, [tag.id])], []⟩

/-- The required environment variables of AddTags.py, in source order. -/
def required_env : List String :=
  ["SYNOLOGY_PHOTO_USERNAME", "SYNOLOGY_PHOTO_PASSWORD", "SYNOLOGY_PHOTO_URL"]

/-- Python if not os.getenv(var): the variable counts as missing when it
is unset or set to the empty string. -/
def envMissing (env : String → Option String) (var : String) : Bool :=
  match env var with
  | none => true
  | some s => s.isEmpty

/-- Observable outcome of the AddTags.py process: exit code, stderr lines
and the add_tag requests issued. -/
structure AddTagsResult where
  exitCode : Nat
  stderrLines : List String
  addTagCalls : List (List Nat × List Nat)
deriving Repr, DecidableEq

/-- The main block of AddTags.py: exit 1 when a required environment
variable is missing, exit 1 when authenticate raises, otherwise process
every team in the mapping in order and end normally (exit 0). -/
def addTagsMain (env : String → Option String) (w : World) : AddTagsResult :=
  let missing := required_env.filter (fun v => envMissing env v)
  if missing.isEmpty then
    match w.authResult with
    | .error e => ⟨1, ["Fatal error: " ++ errString e], []⟩
    | .ok _ =>
      let outcomes := team_folders_id.map (fun p => process_team w p.1 p.2)
      ⟨0, (outcomes.map TeamOutcome.stderrLines).flatten,
       (outcomes.map TeamOutcome.addTagCalls).flatten⟩
  else
    ⟨1, ["Missing required environment variables: " ++
         String.intercalate ", " missing], []⟩

/-- Observable outcome of UpdateTagsList.py: exit code and the writes to
the output file (path and the serialized tag list). -/
structure TagsScriptResult where
  exitCode : Nat
  writes : List (String × List Tag)
deriving Repr, DecidableEq

/-- The module body of UpdateTagsList.py: authenticate, fetch all tags,
and only then open output/tags_info.json for writing and dump the tags;
any exception is printed and the process exits 1 with no write. -/
def updateTagsListMain (w : World) : TagsScriptResult :=
  match w.authResult with
  | .error _ => ⟨1, []⟩
  | .ok _ =>
    match get_all_tags_w w with
    | .error _ => ⟨1, []⟩
    | .ok tags_info => ⟨0, [("output/tags_info.json", tags_info)]⟩

/-- Observable outcome of UpdateApiInfo.py: exit code and the writes to
the output file (path and the serialized payload). -/
structure ApiScriptResult where
  exitCode : Nat
  writes : List (String × String)
deriving Repr, DecidableEq

/-- The module body of UpdateApiInfo.py: call get_api_info (no
authentication, no credential is read) and only then open
output/api_info.json for writing and dump the payload; any exception is
printed and the process exits 1 with no write.  The environment is a
parameter because the claims quantify over it, but the script itself
never branches on the credential variables. -/
def updateApiInfoMain (_env : String → Option String) (w : World) :
    ApiScriptResult :=
  match w.apiInfoResult with
  | .error _ => ⟨1, []⟩
  | .ok data => ⟨0, [("output/api_info.json", data)]⟩

/-- All items contributed by a forest, folder by folder in preorder. -/
def forestItems (cs : List FolderTree) : List Item :=
  ((preorderChildren cs).map FolderTree.folderItems).flatten

/-! ### Concrete instances used to exercise the statements -/

/-- A small folder tree: folder 10 holds items 1 and 2 and two subfolders,
one of which has a subfolder of its own. -/
def sampleTree : FolderTree :=
  .node 10 [⟨1⟩, ⟨2⟩]
    [.node 11 [⟨3⟩] [], .node 12 [⟨4⟩] [.node 13 [⟨5⟩] []]]

/-- A small tag list containing the tags of two teams. -/
def sampleTags : List Tag := [⟨7, "U20F"⟩, ⟨8, "U18M-2"⟩]

/-- A mock world in which every request succeeds: every folder id resolves
to the sample tree and the tag list request returns the sample tags. -/
def sampleWorld : World where
  itemsError := fun _ => none
  foldersError := fun _ => none
  folderOf := fun _ => sampleTree
  authResult := .ok "sid0"
  tagsResult := .ok sampleTags
  addTagError := fun _ _ => none
  apiInfoResult := .ok "info0"

/-- A mock world in which the item list request on folder 3048 (the U20F
team folder) fails with vendor error 803, and everything else succeeds;
each folder id resolves to a leaf tree rooted at that id. -/
def failWorld : World where
  itemsError := fun i => if i = 3048 then some (.apiFailed "Failed to get items" 803) else none
  foldersError := fun _ => none
  folderOf := fun i => .node i [⟨1⟩, ⟨2⟩] []
  authResult := .ok "sid0"
  tagsResult := .ok sampleTags
  addTagError := fun _ _ => none
  apiInfoResult := .ok "info0"

/-- Two distinct tags sharing one name. -/
def dupTags : List Tag := [⟨1, "dup"⟩, ⟨2, "dup"⟩]

/-- The successful mock world with the duplicate-name tag list. -/
def dupWorld : World := { sampleWorld with tagsResult := .ok dupTags }

/-- A mock world in which both the login request and the API info request
fail. -/
def authFailWorld : World :=
  { sampleWorld with
      authResult := .error (.apiFailed "Authentication failed" 400),
      apiInfoResult := .error (.requestFailed 500) }

/-- An environment with all three required variables set. -/
def envAll : String → Option String := fun v =>
  if v = "SYNOLOGY_PHOTO_URL" then some "http://nas/"
  else if v = "SYNOLOGY_PHOTO_USERNAME" then some "alice"
  else if v = "SYNOLOGY_PHOTO_PASSWORD" then some "pw"
  else none

/-- An environment in which only the URL is set and both credential
variables are missing. -/
def envNoUser : String → Option String := fun v =>
  if v = "SYNOLOGY_PHOTO_URL" then some "http://nas/" else none

end SynologyPhotos

namespace SynologyPhotos

/-! ## Helper lemmas -/

/-- The preorder traversal of a tree is the root followed by its proper
descendants. -/
theorem preorder_eq_cons (t : FolderTree) :
    preorder t = t :: descendants t := by
  cases t with
  | node i its cs => simp [preorder, descendants]

/-- Unfolding of treeItems at a node. -/
theorem treeItems_node (i : Nat) (its : List Item) (cs : List FolderTree) :
    treeItems (.node i its cs) = its ++ forestItems cs := by
  simp [treeItems, forestItems, preorder, FolderTree.folderItems]

mutual

/-- When no request failure is injected, the recursive item listing on a
tree succeeds and returns exactly the items of the tree in preorder. -/
theorem get_items_recursive_ok (w : World)
    (hI : ∀ i, w.itemsError i = none) (hF : ∀ i, w.foldersError i = none) :
    ∀ t, get_items_recursive w t = .ok (treeItems t)
  | .node i its cs => by
    rw [get_items_recursive, hI, hF, get_items_children_ok w hI hF cs,
      treeItems_node]

/-- When no request failure is injected, the extend loop over a forest
succeeds and returns exactly the items of the forest in preorder. -/
theorem get_items_children_ok (w : World)
    (hI : ∀ i, w.itemsError i = none) (hF : ∀ i, w.foldersError i = none) :
    ∀ cs, get_items_children w cs = .ok (forestItems cs)
  | [] => by simp [get_items_children, forestItems, preorderChildren]
  | c :: cs => by
    rw [get_items_children, get_items_recursive_ok w hI hF c,
      get_items_children_ok w hI hF cs]
    simp [forestItems, preorderChildren, treeItems]

end

/-- Membership in treeItems: an item is listed exactly when some folder of
the tree (the root or a descendant) holds it. -/
theorem mem_treeItems (t : FolderTree) (x : Item) :
    x ∈ treeItems t ↔
      x ∈ t.folderItems ∨ ∃ d ∈ descendants t, x ∈ d.folderItems := by
  rw [treeItems, preorder_eq_cons]
  simp [List.mem_flatten]

/-- The get_tag scan returns a tag exactly when that tag matches the
requested name and every tag before it in the list does not: the first
match in list order, under exact string equality of names. -/
theorem findTagLoop_ok_iff (tags : List Tag) (name : String) (t : Tag) :
    findTagLoop tags name = .ok t ↔
      t.name = name ∧
        ∃ l₁ l₂, tags = l₁ ++ t :: l₂ ∧ ∀ u ∈ l₁, u.name ≠ name := by
  induction tags with
  | nil =>
    simp only [findTagLoop]
    constructor
    · intro h
      cases h
    · rintro ⟨-, l₁, l₂, h, -⟩
      cases l₁ <;> simp at h
  | cons a ts ih =>
    by_cases h : a.name = name
    · have hb : (a.name == name) = true := by simp [h]
      simp only [findTagLoop, hb, if_true, Except.ok.injEq]
      constructor
      · intro hok
        subst hok
        exact ⟨h, [], ts, rfl, by simp⟩
      · rintro ⟨hn, l₁, l₂, heq, hpre⟩
        cases l₁ with
        | nil =>
          simp at heq
          exact heq.1
        | cons b l₁ =>
          simp at heq
          have hbn : a.name ≠ name := by
            rw [heq.1]
            exact hpre b (by simp)
          exact absurd h hbn
    · have hb : (a.name == name) = false := by simp [h]
      simp only [findTagLoop, hb, Bool.false_eq_true, if_false, ih]
      constructor
      · rintro ⟨hn, l₁, l₂, heq, hpre⟩
        refine ⟨hn, a :: l₁, l₂, by simp [heq], ?_⟩
        intro u hu
        rcases List.mem_cons.mp hu with hu | hu
        · rw [hu]; exact h
        · exact hpre u hu
      · rintro ⟨hn, l₁, l₂, heq, hpre⟩
        cases l₁ with
        | nil =>
          simp at heq
          rw [heq.1] at h
          exact absurd hn h
        | cons b l₁ =>
          simp at heq
          refine ⟨hn, l₁, l₂, heq.2, ?_⟩
          intro u hu
          exact hpre u (List.mem_cons_of_mem b hu)

/-- When some tag in the list has the requested name, the scan succeeds
with a tag of that name. -/
theorem findTagLoop_of_mem (tags : List Tag) (name : String)
    (h : ∃ u ∈ tags, u.name = name) :
    ∃ t, findTagLoop tags name = .ok t ∧ t.name = name := by
  induction tags with
  | nil => simp at h
  | cons a ts ih =>
    by_cases ha : a.name = name
    · exact ⟨a, by simp [findTagLoop, ha], ha⟩
    · have hb : (a.name == name) = false := by simp [ha]
      rcases h with ⟨u, hu, hname⟩
      rcases List.mem_cons.mp hu with hu | hu
      · exact absurd (hu ▸ hname) ha
      · rcases ih ⟨u, hu, hname⟩ with ⟨t, ht, htn⟩
        exact ⟨t, by simp [findTagLoop, hb, ht], htn⟩

/-- When no tag in the list has the requested name, the scan raises
Tag not found. -/
theorem findTagLoop_not_found (tags : List Tag) (name : String)
    (h : ∀ u ∈ tags, u.name ≠ name) :
    findTagLoop tags name = .error (.tagNotFound name) := by
  induction tags with
  | nil => simp [findTagLoop]
  | cons a ts ih =>
    have ha : (a.name == name) = false := by simp [h a (by simp)]
    simp only [findTagLoop, ha, if_false]
    exact ih (fun u hu => h u (List.mem_cons_of_mem a hu))

/-- A non-200 status raises Request failed with the HTTP status code,
whatever the decoded body says. -/
theorem apiCheck_not200 {α : Type} (ctx : String) (resp : HttpResponse α)
    (h : resp.status_code ≠ 200) :
    apiCheck ctx resp = .error (.requestFailed resp.status_code) := by
  simp [apiCheck, h]

/-- A 200 status with a false success flag raises the context message with
the vendor error code. -/
theorem apiCheck_vendorFail {α : Type} (ctx : String) (resp : HttpResponse α)
    (h : resp.status_code = 200) (hs : resp.body.success = false) :
    apiCheck ctx resp = .error (.apiFailed ctx resp.body.errorCode) := by
  simp [apiCheck, h, hs]

/-- A 200 status with a true success flag returns the data payload. -/
theorem apiCheck_ok {α : Type} (ctx : String) (resp : HttpResponse α)
    (h : resp.status_code = 200) (hs : resp.body.success = true) :
    apiCheck ctx resp = .ok resp.body.data := by
  simp [apiCheck, h, hs]

/-- The three-way behaviour of a checked call whose payload is projected
with a field accessor. -/
theorem apiCheck_map_triple {α β : Type} (ctx : String) (f : α → β)
    (resp : HttpResponse α) :
    (resp.status_code ≠ 200 →
      (apiCheck ctx resp).map f = .error (.requestFailed resp.status_code)) ∧
    (resp.status_code = 200 → resp.body.success = false →
      (apiCheck ctx resp).map f =
        .error (.apiFailed ctx resp.body.errorCode)) ∧
    (resp.status_code = 200 → resp.body.success = true →
      (apiCheck ctx resp).map f = .ok (f resp.body.data)) := by
  refine ⟨fun h => ?_, fun h hs => ?_, fun h hs => ?_⟩
  · rw [apiCheck_not200 ctx resp h]; rfl
  · rw [apiCheck_vendorFail ctx resp h hs]; rfl
  · rw [apiCheck_ok ctx resp h hs]; rfl

/-! ## Claims -/

/-- C1: on every mocked folder tree, get_items with recursive=True (when
no request fails) returns exactly the items of the folder together with
the items of every descendant folder — each folder contributing its item
page exactly once, so nothing is omitted, and when the items of the tree
are pairwise distinct the returned list has no duplicates. -/
theorem c1_recursive_item_listing (w : World) (t : FolderTree)
    (hI : ∀ i, w.itemsError i = none) (hF : ∀ i, w.foldersError i = none) :
    get_items_recursive w t = .ok (treeItems t) ∧
      (∀ x, x ∈ treeItems t ↔
        x ∈ t.folderItems ∨ ∃ d ∈ descendants t, x ∈ d.folderItems) ∧
      ((treeItems t).Nodup →
        ∀ l, get_items_recursive w t = .ok l → l.Nodup) := by
  refine ⟨get_items_recursive_ok w hI hF t, fun x => mem_treeItems t x, ?_⟩
  intro hnd l hl
  rw [get_items_recursive_ok w hI hF t] at hl
  injection hl with h
  exact h ▸ hnd

/-- Witness for C1 on the sample tree: the recursive listing returns the
five items of the tree, and they are pairwise distinct. -/
theorem c1_witness :
    get_items_recursive sampleWorld sampleTree =
      .ok [⟨1⟩, ⟨2⟩, ⟨3⟩, ⟨4⟩, ⟨5⟩] ∧ (treeItems sampleTree).Nodup := by
  have h := c1_recursive_item_listing sampleWorld sampleTree
    (fun _ => rfl) (fun _ => rfl)
  refine ⟨?_, by decide⟩
  rw [h.1]
  rfl

/-- C3: get_tag on a tag list returned by get_all_tags yields a tag whose
name equals the requested name when one is present, and raises
SynologyPhotoError (Tag not found) when none is. -/
theorem c3_get_tag_found_or_raises (w : World) (tags : List Tag)
    (name : String) (hw : w.tagsResult = .ok tags) :
    ((∃ u ∈ tags, u.name = name) →
      ∃ t, get_tag_w w name = .ok t ∧ t.name = name) ∧
    ((∀ u ∈ tags, u.name ≠ name) →
      get_tag_w w name = .error (.tagNotFound name)) := by
  constructor
  · intro h
    rcases findTagLoop_of_mem tags name h with ⟨t, ht, htn⟩
    exact ⟨t, by simp [get_tag_w, get_all_tags_w, hw, ht], htn⟩
  · intro h
    simp [get_tag_w, get_all_tags_w, hw, findTagLoop_not_found tags name h]

/-- Witness for C3: on the sample tag list a present name is found with
the matching name. -/
theorem c3_witness :
    (∃ u ∈ sampleTags, u.name = "U20F") ∧
    (∃ t, get_tag_w sampleWorld "U20F" = .ok t ∧ t.name = "U20F") :=
  ⟨⟨⟨7, "U20F"⟩, by simp [sampleTags], rfl⟩,
   (c3_get_tag_found_or_raises sampleWorld sampleTags "U20F" rfl).1
     ⟨⟨7, "U20F"⟩, by simp [sampleTags], rfl⟩⟩

/-- C10: get_tag returns a tag exactly when it matches the requested name
under exact string equality and every tag before it in the returned list
does not match: with duplicate names it deterministically returns the
first match in list order. -/
theorem c10_get_tag_first_match (w : World) (tags : List Tag)
    (name : String) (t : Tag) (hw : w.tagsResult = .ok tags) :
    get_tag_w w name = .ok t ↔
      t.name = name ∧
        ∃ l₁ l₂, tags = l₁ ++ t :: l₂ ∧ ∀ u ∈ l₁, u.name ≠ name := by
  simp only [get_tag_w, get_all_tags_w, hw]
  exact findTagLoop_ok_iff tags name t

/-- Witness for C10: with two tags both named dup, get_tag returns the
first one. -/
theorem c10_witness : get_tag_w dupWorld "dup" = .ok ⟨1, "dup"⟩ :=
  (c10_get_tag_first_match dupWorld dupTags "dup" ⟨1, "dup"⟩ rfl).mpr
    ⟨rfl, [], [⟨2, "dup"⟩], rfl, by simp⟩

/-- C2 counterexample: on a non-200 response the raised error carries the
HTTP status code and not the vendor error code of the decoded body.  Here
authenticate sees status 500 while the body reports vendor error 42; the
raised error is Request failed: 500, which does not embed 42. -/
theorem c2_counterexample :
    (authenticate_http "u" "p" ⟨500, ⟨true, 42, ⟨"s"⟩⟩⟩).2 =
      .error (.requestFailed 500) ∧
    ¬ carriesVendorCode (.requestFailed 500) 42 :=
  ⟨rfl, fun h => h⟩

/-- C2 (amended): every library call raises the single error type
SynologyPhotoError on a non-200 status (carrying the HTTP status code) and
on a false success flag (carrying the vendor error code), and otherwise
returns the decoded payload without raising.  Each of the six functions is
characterized on its own response. -/
theorem c2_error_on_failure (username password sid : String)
    (fid : Option Nat) (item_ids tag_ids : List Nat)
    (ra : HttpResponse AuthData) (rq : HttpResponse String)
    (rf : HttpResponse (ListData Folder)) (ri : HttpResponse (ListData Item))
    (rt : HttpResponse (ListData Tag)) (rd : HttpResponse Unit) :
    ((ra.status_code ≠ 200 → (authenticate_http username password ra).2 =
        .error (.requestFailed ra.status_code)) ∧
     (ra.status_code = 200 → ra.body.success = false →
        (authenticate_http username password ra).2 =
          .error (.apiFailed "Authentication failed" ra.body.errorCode)) ∧
     (ra.status_code = 200 → ra.body.success = true →
        (authenticate_http username password ra).2 = .ok ra.body.data.sid)) ∧
    ((rq.status_code ≠ 200 → (get_api_info_http rq).2 =
        .error (.requestFailed rq.status_code)) ∧
     (rq.status_code = 200 → rq.body.success = false →
        (get_api_info_http rq).2 =
          .error (.apiFailed "Failed to get API Info" rq.body.errorCode)) ∧
     (rq.status_code = 200 → rq.body.success = true →
        (get_api_info_http rq).2 = .ok rq.body.data)) ∧
    ((rf.status_code ≠ 200 → (get_folders_http sid fid rf).2 =
        .error (.requestFailed rf.status_code)) ∧
     (rf.status_code = 200 → rf.body.success = false →
        (get_folders_http sid fid rf).2 =
          .error (.apiFailed "Failed to get root folders" rf.body.errorCode)) ∧
     (rf.status_code = 200 → rf.body.success = true →
        (get_folders_http sid fid rf).2 = .ok rf.body.data.list)) ∧
    ((ri.status_code ≠ 200 → (get_items_http sid fid ri).2 =
        .error (.requestFailed ri.status_code)) ∧
     (ri.status_code = 200 → ri.body.success = false →
        (get_items_http sid fid ri).2 =
          .error (.apiFailed "Failed to get items" ri.body.errorCode)) ∧
     (ri.status_code = 200 → ri.body.success = true →
        (get_items_http sid fid ri).2 = .ok ri.body.data.list)) ∧
    ((rt.status_code ≠ 200 → (get_all_tags_http sid rt).2 =
        .error (.requestFailed rt.status_code)) ∧
     (rt.status_code = 200 → rt.body.success = false →
        (get_all_tags_http sid rt).2 =
          .error (.apiFailed "Failed to get all tags" rt.body.errorCode)) ∧
     (rt.status_code = 200 → rt.body.success = true →
        (get_all_tags_http sid rt).2 = .ok rt.body.data.list)) ∧
    ((rd.status_code ≠ 200 → (add_tag_http sid item_ids tag_ids rd).2 =
        .error (.requestFailed rd.status_code)) ∧
     (rd.status_code = 200 → rd.body.success = false →
        (add_tag_http sid item_ids tag_ids rd).2 =
          .error (.apiFailed "Failed to add tags" rd.body.errorCode)) ∧
     (rd.status_code = 200 → rd.body.success = true →
        (add_tag_http sid item_ids tag_ids rd).2 = .ok rd.body.data)) := by
  refine ⟨?_, ?_, ?_, ?_, ?_, ?_⟩
  · exact apiCheck_map_triple "Authentication failed" AuthData.sid ra
  · exact ⟨fun h => apiCheck_not200 _ rq h,
      fun h hs => apiCheck_vendorFail _ rq h hs,
      fun h hs => apiCheck_ok _ rq h hs⟩
  · exact apiCheck_map_triple "Failed to get root folders" ListData.list rf
  · exact apiCheck_map_triple "Failed to get items" ListData.list ri
  · exact apiCheck_map_triple "Failed to get all tags" ListData.list rt
  · exact ⟨fun h => apiCheck_not200 _ rd h,
      fun h hs => apiCheck_vendorFail _ rd h hs,
      fun h hs => apiCheck_ok _ rd h hs⟩

/-- Witness for C2: the three cases exercised on concrete responses of
three different calls. -/
theorem c2_witness :
    (authenticate_http "u" "p" ⟨404, ⟨true, 0, ⟨"s"⟩⟩⟩).2 =
      .error (.requestFailed 404) ∧
    (get_all_tags_http "sid0" ⟨200, ⟨false, 642, ⟨[]⟩⟩⟩).2 =
      .error (.apiFailed "Failed to get all tags" 642) ∧
    (get_items_http "sid0" (some 5) ⟨200, ⟨true, 0, ⟨[⟨9⟩]⟩⟩⟩).2 =
      .ok [⟨9⟩] := by
  have ha := (c2_error_on_failure "u" "p" "sid0" (some 5) [] []
    ⟨404, ⟨true, 0, ⟨"s"⟩⟩⟩ ⟨200, ⟨true, 0, "q"⟩⟩ ⟨200, ⟨true, 0, ⟨[]⟩⟩⟩
    ⟨200, ⟨true, 0, ⟨[⟨9⟩]⟩⟩⟩ ⟨200, ⟨false, 642, ⟨[]⟩⟩⟩ ⟨200, ⟨true, 0, ()⟩⟩)
  exact ⟨ha.1.1 (by decide),
    ha.2.2.2.2.1.2.1 rfl rfl,
    ha.2.2.2.1.2.2 rfl rfl⟩

/-- C4: for every team of the fixed mapping, when processing succeeds the
batch tagger recursively lists the items of the team folder, resolves the
tag whose name equals the team name, and issues exactly one add_tag
request applying that one tag to the ids of all listed items. -/
theorem c4_process_team_tags_all_items (w : World) (team : String)
    (folder : Nat) (tags : List Tag) (tag : Tag)
    (_hmem : (team, folder) ∈ team_folders_id)
    (hI : ∀ i, w.itemsError i = none) (hF : ∀ i, w.foldersError i = none)
    (hT : w.tagsResult = .ok tags)
    (htag : findTagLoop tags team = .ok tag)
    (hA : w.addTagError ((treeItems (w.folderOf folder)).map Item.id)
            [tag.id] = none) :
    process_team w team folder =
      ⟨[((treeItems (w.folderOf folder)).map Item.id, [tag.id])], []⟩ ∧
    tag.name = team := by
  have hitems : get_items_by_id w folder =
      .ok (treeItems (w.folderOf folder)) :=
    get_items_recursive_ok w hI hF _
  refine ⟨?_, ((findTagLoop_ok_iff tags team tag).mp htag).1⟩
  simp only [process_team, hitems, get_tag_w, get_all_tags_w, hT, htag,
    add_tag_w, hA]

/-- Witness for C4: team U20F with the sample world, where the recursive
listing of its folder yields items 1..5 and the tag named U20F has id 7. -/
theorem c4_witness :
    process_team sampleWorld "U20F" 3048 =
      ⟨[([1, 2, 3, 4, 5], [7])], []⟩ := by
  have h := c4_process_team_tags_all_items sampleWorld "U20F" 3048
    sampleTags ⟨7, "U20F"⟩ (by decide) (fun _ => rfl) (fun _ => rfl)
    rfl rfl rfl
  rw [h.1]
  rfl

/-- C5: when an API call while processing one team fails, the error is
caught and logged to standard error, the team is skipped, every other team
of the mapping is still processed, and the process exit code stays 0. -/
theorem c5_team_failure_is_skipped (env : String → Option String) (w : World)
    (henv : required_env.filter (fun v => envMissing env v) = [])
    (sid : String) (hauth : w.authResult = .ok sid) :
    (addTagsMain env w).exitCode = 0 ∧
    (addTagsMain env w).stderrLines =
      ((team_folders_id.map (fun p => process_team w p.1 p.2)).map
        TeamOutcome.stderrLines).flatten ∧
    (addTagsMain env w).addTagCalls =
      ((team_folders_id.map (fun p => process_team w p.1 p.2)).map
        TeamOutcome.addTagCalls).flatten ∧
    ∀ p ∈ team_folders_id, ∀ e, get_items_by_id w p.2 = .error e →
      errLine p.1 e ∈ (addTagsMain env w).stderrLines := by
  have hmain : addTagsMain env w =
      ⟨0, ((team_folders_id.map (fun p => process_team w p.1 p.2)).map
            TeamOutcome.stderrLines).flatten,
          ((team_folders_id.map (fun p => process_team w p.1 p.2)).map
            TeamOutcome.addTagCalls).flatten⟩ := by
    simp only [addTagsMain, henv, List.isEmpty_nil, if_true, hauth]
  refine ⟨by rw [hmain], by rw [hmain], by rw [hmain], ?_⟩
  intro p hp e he
  have hout : process_team w p.1 p.2 = ⟨[], [errLine p.1 e]⟩ := by
    simp only [process_team, he]
  rw [hmain]
  simp only [List.mem_flatten, List.mem_map]
  exact ⟨[errLine p.1 e],
    ⟨process_team w p.1 p.2, ⟨p, hp, rfl⟩, by rw [hout]⟩, by simp⟩

/-- Witness for C5: in the world where the item request of the U20F folder
fails with vendor error 803, the process still exits 0 and the error line
for team U20F is on standard error. -/
theorem c5_witness :
    (addTagsMain envAll failWorld).exitCode = 0 ∧
    errLine "U20F" (.apiFailed "Failed to get items" 803) ∈
      (addTagsMain envAll failWorld).stderrLines := by
  have h := c5_team_failure_is_skipped envAll failWorld (by decide)
    "sid0" rfl
  refine ⟨h.1, h.2.2.2 ("U20F", 3048) (by decide)
    (.apiFailed "Failed to get items" 803) ?_⟩
  simp [get_items_by_id, failWorld, get_items_recursive]

/-- C6 counterexample: UpdateApiInfo.py never reads the credential
variables; with SYNOLOGY_PHOTO_USERNAME (and the password) missing from
the environment but a successful API call, it exits 0, not 1 as the claim
requires for a missing required variable. -/
theorem c6_counterexample :
    envMissing envNoUser "SYNOLOGY_PHOTO_USERNAME" = true ∧
    (updateApiInfoMain envNoUser sampleWorld).exitCode = 0 := by
  exact ⟨rfl, rfl⟩

/-- C6 (amended): AddTags.py exits 1 when a required environment variable
is missing or authentication raises, and 0 when neither happens;
UpdateTagsList.py exits 1 exactly when authenticate or get_all_tags
raises; UpdateApiInfo.py exits 1 exactly when get_api_info raises, and
otherwise exits 0 even when the credential variables are missing, because
it never reads them. -/
theorem c6_exit_codes (env : String → Option String) (w : World) :
    (required_env.filter (fun v => envMissing env v) ≠ [] →
      (addTagsMain env w).exitCode = 1) ∧
    (required_env.filter (fun v => envMissing env v) = [] →
      (∀ e, w.authResult = .error e → (addTagsMain env w).exitCode = 1) ∧
      (∀ sid, w.authResult = .ok sid → (addTagsMain env w).exitCode = 0)) ∧
    (∀ e, w.authResult = .error e → (updateTagsListMain w).exitCode = 1) ∧
    (∀ sid, w.authResult = .ok sid →
      (∀ e, w.tagsResult = .error e → (updateTagsListMain w).exitCode = 1) ∧
      (∀ tags, w.tagsResult = .ok tags →
        (updateTagsListMain w).exitCode = 0)) ∧
    (∀ e, w.apiInfoResult = .error e →
      (updateApiInfoMain env w).exitCode = 1) ∧
    (∀ d, w.apiInfoResult = .ok d →
      (updateApiInfoMain env w).exitCode = 0) := by
  refine ⟨fun hne => ?_, fun he => ⟨fun e ha => ?_, fun sid ha => ?_⟩,
    fun e ha => ?_, fun sid ha => ⟨fun e ht => ?_, fun tags ht => ?_⟩,
    fun e hi => ?_, fun d hi => ?_⟩
  · have : (required_env.filter (fun v => envMissing env v)).isEmpty = false := by
      cases hl : required_env.filter (fun v => envMissing env v) with
      | nil => exact absurd hl hne
      | cons a l => simp
    simp only [addTagsMain, this, Bool.false_eq_true, if_false]
  · simp only [addTagsMain, he, List.isEmpty_nil, if_true, ha]
  · simp only [addTagsMain, he, List.isEmpty_nil, if_true, ha]
  · simp only [updateTagsListMain, ha]
  · simp only [updateTagsListMain, ha, get_all_tags_w, ht]
  · simp only [updateTagsListMain, ha, get_all_tags_w, ht]
  · simp only [updateApiInfoMain, hi]
  · simp only [updateApiInfoMain, hi]

/-- Witness for C6: a missing variable makes AddTags.py exit 1, and with
all variables present and failing authentication it also exits 1. -/
theorem c6_witness :
    (addTagsMain envNoUser sampleWorld).exitCode = 1 ∧
    (addTagsMain envAll authFailWorld).exitCode = 1 ∧
    (updateTagsListMain sampleWorld).exitCode = 0 := by
  refine ⟨(c6_exit_codes envNoUser sampleWorld).1 (by decide),
    ((c6_exit_codes envAll authFailWorld).2.1 (by decide)).1
      (.apiFailed "Authentication failed" 400) rfl,
    (((c6_exit_codes envAll sampleWorld).2.2.2.1 "sid0" rfl).2
      sampleTags rfl)⟩

/-- C7 counterexample: the request of get_api_info carries no _sid
parameter at all, although get_api_info is not authenticate. -/
theorem c7_counterexample :
    ("_sid" ∈ get_api_info_params.map Prod.fst) = False := by
  simp [get_api_info_params]

/-- C7 (amended): get_folders, get_items, get_all_tags and add_tag all
pass the session identifier as the _sid query parameter of their request,
while get_api_info issues its request without any _sid parameter. -/
theorem c7_sid_parameter (sid : String) (fid : Option Nat)
    (item_ids tag_ids : List Nat) :
    ("_sid", some sid) ∈ get_folders_params sid fid ∧
    ("_sid", some sid) ∈ get_items_params sid fid ∧
    ("_sid", some sid) ∈ get_all_tags_params sid ∧
    ("_sid", some sid) ∈ add_tag_params sid item_ids tag_ids ∧
    ∀ v, ("_sid", v) ∉ get_api_info_params := by
  refine ⟨?_, ?_, ?_, ?_, ?_⟩ <;>
    simp [get_folders_params, get_items_params, get_all_tags_params,
      add_tag_params, get_api_info_params]

/-- Witness for C7: the tag listing request carries the sid while the API
info request does not. -/
theorem c7_witness :
    ("_sid", some "sid0") ∈ get_all_tags_params "sid0" ∧
    ("_sid", some "sid0") ∉ get_api_info_params :=
  ⟨(c7_sid_parameter "sid0" none [] []).2.2.1,
   (c7_sid_parameter "sid0" none [] []).2.2.2.2 (some "sid0")⟩

/-- C8: each listing operation issues exactly one request, with limit=100
and offset=0 among its query parameters, and returns exactly the single
page of the response, so when the vendor honours the limit at most the
first 100 entries of the listing are retrieved. -/
theorem c8_single_page_listing (sid : String) (fid : Option Nat)
    (rf : HttpResponse (ListData Folder)) (ri : HttpResponse (ListData Item))
    (rt : HttpResponse (ListData Tag)) :
    ((get_folders_http sid fid rf).1.length = 1 ∧
     ("limit", some "100") ∈ get_folders_params sid fid ∧
     ("offset", some "0") ∈ get_folders_params sid fid ∧
     (rf.status_code = 200 → rf.body.success = true →
       (get_folders_http sid fid rf).2 = .ok rf.body.data.list) ∧
     (∀ l, (get_folders_http sid fid rf).2 = .ok l →
       l.length ≤ rf.body.data.list.length)) ∧
    ((get_items_http sid fid ri).1.length = 1 ∧
     ("limit", some "100") ∈ get_items_params sid fid ∧
     ("offset", some "0") ∈ get_items_params sid fid ∧
     (ri.status_code = 200 → ri.body.success = true →
       (get_items_http sid fid ri).2 = .ok ri.body.data.list) ∧
     (∀ l, (get_items_http sid fid ri).2 = .ok l →
       l.length ≤ ri.body.data.list.length)) ∧
    ((get_all_tags_http sid rt).1.length = 1 ∧
     ("limit", some "100") ∈ get_all_tags_params sid ∧
     ("offset", some "0") ∈ get_all_tags_params sid ∧
     (rt.status_code = 200 → rt.body.success = true →
       (get_all_tags_http sid rt).2 = .ok rt.body.data.list) ∧
     (∀ l, (get_all_tags_http sid rt).2 = .ok l →
       l.length ≤ rt.body.data.list.length)) := by
  refine ⟨⟨rfl, by simp [get_folders_params], by simp [get_folders_params],
      fun h hs => (apiCheck_map_triple _ ListData.list rf).2.2 h hs, ?_⟩,
    ⟨rfl, by simp [get_items_params], by simp [get_items_params],
      fun h hs => (apiCheck_map_triple _ ListData.list ri).2.2 h hs, ?_⟩,
    ⟨rfl, by simp [get_all_tags_params], by simp [get_all_tags_params],
      fun h hs => (apiCheck_map_triple _ ListData.list rt).2.2 h hs, ?_⟩⟩ <;>
  · intro l hl
    simp only [get_folders_http, get_items_http, get_all_tags_http,
      apiCheck] at hl
    split at hl
    · cases hl
    · split at hl
      · cases hl
      · injection hl with h
        rw [← h]

/-- Witness for C8: on a successful concrete response the folder listing
returns exactly the one-page list. -/
theorem c8_witness :
    (get_folders_http "sid0" (some 3) ⟨200, ⟨true, 0, ⟨[⟨11⟩, ⟨12⟩]⟩⟩⟩).2 =
      .ok [⟨11⟩, ⟨12⟩] ∧
    (get_folders_http "sid0" (some 3) ⟨200, ⟨true, 0, ⟨[⟨11⟩, ⟨12⟩]⟩⟩⟩).1.length = 1 := by
  have h := c8_single_page_listing "sid0" (some 3)
    ⟨200, ⟨true, 0, ⟨[⟨11⟩, ⟨12⟩]⟩⟩⟩ ⟨200, ⟨true, 0, ⟨[]⟩⟩⟩
    ⟨200, ⟨true, 0, ⟨[]⟩⟩⟩
  exact ⟨h.1.2.2.2.1 rfl rfl, h.1.1⟩

/-- C9: the dump scripts write their output file only after the API call
has returned successfully; when authenticate, get_all_tags or
get_api_info raises, no write happens and the previous file contents are
untouched. -/
theorem c9_no_write_on_error (env : String → Option String) (w : World) :
    (∀ e, w.authResult = .error e → (updateTagsListMain w).writes = []) ∧
    (∀ sid, w.authResult = .ok sid → ∀ e, w.tagsResult = .error e →
      (updateTagsListMain w).writes = []) ∧
    (∀ sid tags, w.authResult = .ok sid → w.tagsResult = .ok tags →
      (updateTagsListMain w).writes = [("output/tags_info.json", tags)]) ∧
    (∀ e, w.apiInfoResult = .error e →
      (updateApiInfoMain env w).writes = []) ∧
    (∀ d, w.apiInfoResult = .ok d →
      (updateApiInfoMain env w).writes = [("output/api_info.json", d)]) := by
  refine ⟨fun e ha => ?_, fun sid ha e ht => ?_, fun sid tags ha ht => ?_,
    fun e hi => ?_, fun d hi => ?_⟩
  · simp only [updateTagsListMain, ha]
  · simp only [updateTagsListMain, ha, get_all_tags_w, ht]
  · simp only [updateTagsListMain, ha, get_all_tags_w, ht]
  · simp only [updateApiInfoMain, hi]
  · simp only [updateApiInfoMain, hi]

/-- Witness for C9: with failing login and failing API info request no
file is written, and on success exactly the output file is written. -/
theorem c9_witness :
    (updateTagsListMain authFailWorld).writes = [] ∧
    (updateApiInfoMain envAll authFailWorld).writes = [] ∧
    (updateTagsListMain sampleWorld).writes =
      [("output/tags_info.json", sampleTags)] := by
  refine ⟨(c9_no_write_on_error envAll authFailWorld).1
      (.apiFailed "Authentication failed" 400) rfl,
    (c9_no_write_on_error envAll authFailWorld).2.2.2.1
      (.requestFailed 500) rfl,
    (c9_no_write_on_error envAll sampleWorld).2.2.1 "sid0" sampleTags
      rfl rfl⟩

end SynologyPhotos
